import Mathlib

/-!
Verification development for the flow_chart repository (PolicyEngine variable
dependency visualizer).  The repository ships a React frontend
(`frontend/src/App.tsx` in several revisions, `frontend/src/theme.ts`) that
talks to a Flask backend over HTTP; the backend graph builder itself is not
part of the shown sources, so it is modelled from the specification where a
claim needs it.  All definitions below are shallow embeddings of the
TypeScript source: JavaScript strings become `String`, arrays become `List`,
possibly-missing fields become `Option`, and a computation that can throw is
embedded in `Option` (with `none` for the thrown `TypeError`).
-/

/-! ## JavaScript string primitives used by the frontend -/

/-- Embedding of `s.toLowerCase()` (ASCII lowering, which is what the variable
names and labels in the corpus use). -/
def jsToLower (s : String) : String :=
  String.mk (s.toList.map Char.toLower)

/-- Embedding of `s.includes(sub)`: substring containment. -/
def jsIncludes (s sub : String) : Bool :=
  decide (List.IsInfix sub.toList s.toList)

/-- Embedding of `a || b` on JavaScript strings: the empty string is falsy. -/
def jsOrString (a b : String) : String :=
  if a = "" then b else a

/-- Splitting a character list on every occurrence of a separator; the result
always has one more segment than there are separators (so `"".split(c)` is
`[""]`, as in JavaScript). -/
def splitCharList (sep : Char) : List Char → List (List Char)
  | [] => [[]]
  | c :: cs =>
      match splitCharList sep cs with
      | [] => [[]]
      | r :: rs => if c = sep then [] :: r :: rs else (c :: r) :: rs

/-- Embedding of `s.split(sep)` for a one-character separator. -/
def jsSplit (s : String) (sep : Char) : List String :=
  (splitCharList sep s.toList).map String.mk

/-- Embedding of `s.trim()`: strip leading and trailing whitespace. -/
def jsTrim (s : String) : String :=
  String.mk
    (((s.toList.dropWhile Char.isWhitespace).reverse.dropWhile
        Char.isWhitespace).reverse)

/-! ## Data model of the frontend (`interface Variable` in App.tsx) -/

/-- A variable record as delivered by the `/api/variables` and `/api/search`
endpoints.  The TypeScript interface declares `label: string`, but the server
data can omit the label (the newer App.tsx revision guards the access with
`v.label || ''` and renders `v.label && ...`), so the embedding makes it
optional. -/
structure Variable where
  name : String
  label : Option String
  hasParameters : Bool
deriving DecidableEq, Repr

/-- One render node of the graph payload (`interface GraphNode`). -/
structure RenderNode where
  id : String
  label : String
  title : String
  level : Nat
  color : String
  shape : String
deriving DecidableEq, Repr

/-- One render edge of the graph payload (`interface GraphEdge`). -/
structure RenderEdge where
  from_ : String
  to_ : String
  color : String
  arrows : String
deriving DecidableEq, Repr

/-- The graph payload displayed by the frontend (`interface GraphData`). -/
structure GraphData where
  nodes : List RenderNode
  edges : List RenderEdge
deriving DecidableEq, Repr

/-! ## The local search filter (`filteredVariables`) -/

/-- The predicate of the `variables.filter(...)` call in `filteredVariables`
(App.tsx lines 744-748, the revision that guards the label access with
`(v.label || '')`): case-insensitive substring match of the search term
against the name or the label. -/
def matchesSearch (searchTerm : String) (v : Variable) : Bool :=
  jsIncludes (jsToLower v.name) (jsToLower searchTerm) ||
    jsIncludes (jsToLower (v.label.getD "")) (jsToLower searchTerm)

/-- Embedding of the `filteredVariables` computation (App.tsx lines 744-749):
filter by `matchesSearch` when the search term has length at least 2,
otherwise the full list. -/
def filteredVariables (searchTerm : String) (vars : List Variable) :
    List Variable :=
  if 2 ≤ searchTerm.length then vars.filter (matchesSearch searchTerm)
  else vars

/-- The same predicate as written in the older revisions (App.tsx lines
201-204 and the unnamed `part_000` lines 186-189), where the label is
dereferenced without a guard: `v.label.toLowerCase()`.  When `label` is
missing the JavaScript expression throws a `TypeError`, embedded as `none`.
The `||` short-circuits, so a matching name never touches the label. -/
def matchesSearchUnguarded (searchTerm : String) (v : Variable) :
    Option Bool :=
  if jsIncludes (jsToLower v.name) (jsToLower searchTerm) then some true
  else
    match v.label with
    | some l => some (jsIncludes (jsToLower l) (jsToLower searchTerm))
    | none => none

/-- `Array.prototype.filter` with a predicate that can throw: evaluates the
predicate left to right and propagates the first exception. -/
def filterOpt (p : α → Option Bool) : List α → Option (List α)
  | [] => some []
  | x :: xs => do
    let b ← p x
    let rest ← filterOpt p xs
    pure (if b then x :: rest else rest)

/-- Embedding of the unguarded `filteredVariables` computation (App.tsx lines
200-205 and `part_000` lines 185-190): `none` models the thrown
`TypeError`. -/
def filteredVariablesUnguarded (searchTerm : String)
    (vars : List Variable) : Option (List Variable) :=
  if 2 ≤ searchTerm.length then
    filterOpt (matchesSearchUnguarded searchTerm) vars
  else some vars

/-! ## The stop-variables / no-params textarea payloads -/

/-- Embedding of `stopVariables.split('\n').filter(v => v.trim())` from the
textarea-based `generateFlowchart` (App.tsx lines 106-107, `part_000` lines
116-117): split on newlines and keep the entries whose trim is non-empty. -/
def textareaPayload (s : String) : List String :=
  (jsSplit s '\n').filter (fun v => decide (jsTrim v ≠ ""))

/-- Embedding of `stopVariables.split(',').map(v => v.trim()).filter(v => v)`
from the styled revision's `generateFlowchart` (theme.ts lines 774-775):
split on commas, trim each entry, drop the empty ones. -/
def csvPayload (s : String) : List String :=
  ((jsSplit s ',').map jsTrim).filter (fun v => decide (v ≠ ""))

/-! ## Requests issued by the country-aware App revision (App.tsx 474-1705) -/

/-- The query of `axios.get(API_BASE/variables, params: country)` in
`loadVariables` (App.tsx lines 530-534). -/
structure VariablesRequest where
  country : String
deriving DecidableEq, Repr

/-- The query of `axios.get(API_BASE/search, params: q, country)` in
`searchVariables` (App.tsx lines 550-553). -/
structure SearchRequest where
  q : String
  country : String
deriving DecidableEq, Repr

/-- The body of `axios.post(API_BASE/graph, ...)` in `generateFlowchart`
(App.tsx lines 581-591). -/
structure GraphRequest where
  variable_ : String
  country : String
  maxDepth : Nat
  expandAddsSubtracts : Bool
  showParameters : Bool
  paramDetailLevel : String
  showLabels : Bool
  stopVariables : List String
  noParamsList : List String
deriving DecidableEq, Repr

/-! ## UI state of the country-aware App revision -/

/-- The `useState` hooks of the country-aware `App` component (App.tsx lines
476-497), one field per hook.  `maxDepth` is a `Nat` because the range input
only ever yields decimal integer strings. -/
structure AppState where
  variables_ : List Variable
  selectedVariable : String
  searchTerm : String
  showSearchResults : Bool
  graphData : Option GraphData
  loading : Bool
  error : String
  detailsOpen : Bool
  selectedCountry : String
  legendExpanded : Bool
  maxDepth : Nat
  expandAddsSubtracts : Bool
  showParameters : Bool
  paramDetailLevel : String
  stopVariables : List String
  stopVarSearch : String
  showStopVarDropdown : Bool
  noParamsList : List String
  noParamsSearch : String
  showNoParamsDropdown : Bool
deriving DecidableEq, Repr

/-- The initial values of the `useState` hooks (App.tsx lines 476-497). -/
def initialState : AppState where
  variables_ := []
  selectedVariable := ""
  searchTerm := ""
  showSearchResults := false
  graphData := none
  loading := false
  error := ""
  detailsOpen := false
  selectedCountry := "US"
  legendExpanded := true
  maxDepth := 10
  expandAddsSubtracts := true
  showParameters := true
  paramDetailLevel := "Summary"
  stopVariables := []
  stopVarSearch := ""
  showStopVarDropdown := false
  noParamsList := []
  noParamsSearch := ""
  showNoParamsDropdown := false

/-- The request `loadVariables` sends (App.tsx lines 530-534). -/
def loadVariablesRequest (s : AppState) : VariablesRequest :=
  ⟨s.selectedCountry⟩

/-- Embedding of `searchVariables(query)` (App.tsx lines 544-561): a query
shorter than 2 characters hides the results dropdown and issues no request;
otherwise a search request with the query and the selected country is
issued (its response is a separate event). -/
def searchVariables (s : AppState) (query : String) :
    AppState × Option SearchRequest :=
  if query.length < 2 then ({ s with showSearchResults := false }, none)
  else (s, some ⟨query, s.selectedCountry⟩)

/-- The request body `generateFlowchart` posts (App.tsx lines 581-591). -/
def buildGraphRequest (s : AppState) : GraphRequest where
  variable_ := s.selectedVariable
  country := s.selectedCountry
  maxDepth := s.maxDepth
  expandAddsSubtracts := s.expandAddsSubtracts
  showParameters := s.showParameters
  paramDetailLevel := s.paramDetailLevel
  showLabels := true
  stopVariables := s.stopVariables
  noParamsList := s.noParamsList

/-- Embedding of the synchronous prefix of `generateFlowchart` (App.tsx lines
571-591): an empty selected variable (`!selectedVariable`) sets the error and
issues no request; otherwise loading is set, the error cleared and the graph
request issued. -/
def generateFlowchartClick (s : AppState) : AppState × Option GraphRequest :=
  if s.selectedVariable = "" then
    ({ s with error := "Please select a variable" }, none)
  else
    ({ s with loading := true, error := "" }, some (buildGraphRequest s))

/-! ## Events of the country-aware App revision

Each constructor is one event handler in App.tsx (a user interaction or the
arrival of a server response). -/

inductive Event where
  /-- Successful `/api/variables` response (App.tsx lines 535-537). -/
  | variablesLoaded (vs : List Variable)
  /-- Failed `/api/variables` request (App.tsx lines 538-540). -/
  | variablesLoadFailed
  /-- `onChange` of the search input: `setSearchTerm` then `searchVariables`
  (App.tsx lines 853-856). -/
  | searchInput (q : String)
  /-- Successful `/api/search` response (App.tsx lines 554-557). -/
  | searchResult (q : String) (results : List Variable)
  /-- Clicking a search result: `selectVariable` (App.tsx lines 563-569). -/
  | selectVar (name : String)
  /-- The clear button next to the selected variable (App.tsx lines 969-974). -/
  | clearSelection
  /-- `onChange` of the country selector (App.tsx lines 800-807). -/
  | countryChange (c : String)
  /-- The Advanced Options toggle (App.tsx line 1011). -/
  | toggleDetails
  /-- The Legend toggle (App.tsx line 1571). -/
  | toggleLegend
  /-- `onChange` of the Max Depth range input (App.tsx lines 1044-1049). -/
  | setMaxDepth (v : Nat)
  /-- The Expand Adds/Subtracts checkbox (App.tsx lines 1070-1090). -/
  | setExpand (b : Bool)
  /-- The Show Parameters checkbox (App.tsx lines 1070-1090). -/
  | setShowParams (b : Bool)
  /-- `onChange` of the Parameter Detail Level select (App.tsx lines
  1115-1131). -/
  | setParamDetail (v : String)
  /-- Typing in the no-params search box (App.tsx lines 1208-1219). -/
  | noParamsSearchInput (q : String)
  /-- Clicking a no-params dropdown entry (App.tsx lines 1268-1274). -/
  | noParamsAdd (name : String)
  /-- Removing a no-params chip (App.tsx lines 1173-1176). -/
  | noParamsRemove (idx : Nat)
  /-- Typing in the stop-variables search box (App.tsx lines 1392-1399). -/
  | stopVarSearchInput (q : String)
  /-- Clicking a stop-variable dropdown entry (App.tsx lines 1448-1454). -/
  | stopVarAdd (name : String)
  /-- Removing a stop-variable chip (App.tsx lines 1353-1356). -/
  | stopVarRemove (idx : Nat)
  /-- A `mousedown` outside the dropdown containers (App.tsx lines 511-522). -/
  | clickOutside
  /-- Clicking Generate Flowchart (App.tsx lines 571-578). -/
  | generateClick
  /-- Successful `/api/graph` response (App.tsx lines 593-596, 600-602). -/
  | graphOk (g : GraphData)
  /-- `/api/graph` response with `success: false` (only `finally` runs). -/
  | graphNoSuccess
  /-- Failed `/api/graph` request; the payload is the optional
  `err.response?.data?.error` string (App.tsx lines 597-602). -/
  | graphErr (msg : Option String)
deriving DecidableEq, Repr

/-- The state transition of each event handler, read off the corresponding
App.tsx handler code. -/
def step (s : AppState) : Event → AppState
  | .variablesLoaded vs => { s with variables_ := vs }
  | .variablesLoadFailed => { s with error := "Failed to load variables" }
  | .searchInput q => (searchVariables { s with searchTerm := q } q).1
  | .searchResult _ results =>
      { s with variables_ := results, showSearchResults := true }
  | .selectVar name =>
      { s with selectedVariable := name, searchTerm := "",
               showSearchResults := false, error := "" }
  | .clearSelection => { s with selectedVariable := "", searchTerm := "" }
  | .countryChange c =>
      { s with selectedCountry := c, selectedVariable := "",
               searchTerm := "", error := "", graphData := none }
  | .toggleDetails => { s with detailsOpen := !s.detailsOpen }
  | .toggleLegend => { s with legendExpanded := !s.legendExpanded }
  | .setMaxDepth v => { s with maxDepth := v }
  | .setExpand b => { s with expandAddsSubtracts := b }
  | .setShowParams b => { s with showParameters := b }
  | .setParamDetail v => { s with paramDetailLevel := v }
  | .noParamsSearchInput q =>
      { s with noParamsSearch := q,
               showNoParamsDropdown := decide (2 ≤ q.length) }
  | .noParamsAdd name =>
      if s.noParamsList.contains name then s
      else { s with noParamsList := s.noParamsList ++ [name],
                    noParamsSearch := "", showNoParamsDropdown := false }
  | .noParamsRemove idx =>
      { s with noParamsList := s.noParamsList.eraseIdx idx }
  | .stopVarSearchInput q =>
      { s with stopVarSearch := q,
               showStopVarDropdown := decide (2 ≤ q.length) }
  | .stopVarAdd name =>
      if s.stopVariables.contains name then s
      else { s with stopVariables := s.stopVariables ++ [name],
                    stopVarSearch := "", showStopVarDropdown := false }
  | .stopVarRemove idx =>
      { s with stopVariables := s.stopVariables.eraseIdx idx }
  | .clickOutside =>
      { s with showSearchResults := false, showStopVarDropdown := false,
               showNoParamsDropdown := false }
  | .generateClick => (generateFlowchartClick s).1
  | .graphOk g => { s with graphData := some g, loading := false }
  | .graphNoSuccess => { s with loading := false }
  | .graphErr msg =>
      { s with error := jsOrString (msg.getD "") "Failed to generate graph",
               loading := false }

/-- Which event payloads the DOM can actually deliver: the Max Depth range
input declares `min="1" max="20"` (App.tsx lines 1045-1047), the Parameter
Detail Level select offers exactly the options Minimal, Summary and Full
(App.tsx lines 1128-1130), and the country select offers US and UK (App.tsx
lines 822-823).  All other events are unconstrained. -/
def ValidEvent : Event → Prop
  | .setMaxDepth v => 1 ≤ v ∧ v ≤ 20
  | .setParamDetail v => v ∈ ["Minimal", "Summary", "Full"]
  | .countryChange c => c ∈ ["US", "UK"]
  | _ => True

/-- The UI states reachable from the initial render through valid events. -/
inductive Reachable : AppState → Prop where
  | init : Reachable initialState
  | step {s : AppState} {e : Event} (hs : Reachable s) (he : ValidEvent e) :
      Reachable (step s e)

/-! ## Advanced-options controls of the styled revision (theme.ts 676-1291)

This App revision has the same control hooks but its Parameter Detail Level
select offers a different option set, and its stop/no-params lists are plain
comma-separated strings without any editing UI. -/

/-- The options of the Parameter Detail Level select in the styled revision
(theme.ts lines 1127-1129). -/
def paramDetailOptionsStyled : List String :=
  ["Summary", "Latest 5 values", "All values"]

/-- The control hooks of the styled revision (theme.ts lines 687-693). -/
structure StyledControlsState where
  maxDepth : Nat
  expandAddsSubtracts : Bool
  showLabels : Bool
  showParameters : Bool
  paramDetailLevel : String
  stopVariables : String
  noParamsList : String
deriving DecidableEq, Repr

/-- Initial control values of the styled revision (theme.ts lines 687-693). -/
def styledInit : StyledControlsState where
  maxDepth := 10
  expandAddsSubtracts := true
  showLabels := true
  showParameters := true
  paramDetailLevel := "Summary"
  stopVariables := ""
  noParamsList := ""

/-- The control event handlers of the styled revision (theme.ts lines
1059-1130). -/
inductive StyledEvent where
  | setMaxDepth (v : Nat)
  | setExpand (b : Bool)
  | setShowLabels (b : Bool)
  | setShowParams (b : Bool)
  | setParamDetail (v : String)
deriving DecidableEq, Repr

/-- State transitions of the styled revision's control handlers. -/
def styledStep (s : StyledControlsState) : StyledEvent → StyledControlsState
  | .setMaxDepth v => { s with maxDepth := v }
  | .setExpand b => { s with expandAddsSubtracts := b }
  | .setShowLabels b => { s with showLabels := b }
  | .setShowParams b => { s with showParameters := b }
  | .setParamDetail v => { s with paramDetailLevel := v }

/-- DOM-deliverable payloads in the styled revision: the range input declares
`min="1" max="20"` (theme.ts lines 1060-1062) and the select offers exactly
`paramDetailOptionsStyled` (theme.ts lines 1127-1129). -/
def StyledValid : StyledEvent → Prop
  | .setMaxDepth v => 1 ≤ v ∧ v ≤ 20
  | .setParamDetail v => v ∈ paramDetailOptionsStyled
  | _ => True

/-- Control states reachable in the styled revision. -/
inductive ReachableStyled : StyledControlsState → Prop where
  | init : ReachableStyled styledInit
  | step {s : StyledControlsState} {e : StyledEvent}
      (hs : ReachableStyled s) (he : StyledValid e) :
      ReachableStyled (styledStep s e)

/-! ## Theme colors and the node legend -/

namespace PolicyEngineTheme

def BLUE_PRIMARY : String := "#2C6496"
def DARKEST_BLUE : String := "#0C1A27"
def BLUE_LIGHT : String := "#D8E6F3"
def BLUE_98 : String := "#F7FAFD"
def TEAL_ACCENT : String := "#39C6C0"
def TEAL_PRESSED : String := "#227773"
def GRAY : String := "#808080"
def GREEN : String := "#29d40f"
def DARK_RED : String := "#b50d0d"

end PolicyEngineTheme

/-- A background/border color scheme of a node class in
`PolicyEngineTheme.graph` (theme.ts lines 36-62). -/
structure NodeStyle where
  background : String
  border : String
deriving DecidableEq, Repr

/-- `PolicyEngineTheme.graph.targetNode` (theme.ts lines 38-45). -/
def targetNode : NodeStyle :=
  ⟨PolicyEngineTheme.TEAL_ACCENT, PolicyEngineTheme.TEAL_PRESSED⟩

/-- `PolicyEngineTheme.graph.stopNode` (theme.ts lines 46-53). -/
def stopNode : NodeStyle :=
  ⟨PolicyEngineTheme.BLUE_98, PolicyEngineTheme.DARK_RED⟩

/-- `PolicyEngineTheme.graph.normalNode` (theme.ts lines 54-61). -/
def normalNode : NodeStyle :=
  ⟨PolicyEngineTheme.BLUE_LIGHT, PolicyEngineTheme.BLUE_PRIMARY⟩

/-- The node entries of the Legend panel, one `(color, label)` pair per node
role (App.tsx lines 1601-1606). -/
def legendNodeEntries : List (String × String) :=
  [(PolicyEngineTheme.TEAL_ACCENT, "Root"),
   (PolicyEngineTheme.BLUE_PRIMARY, "Dependency"),
   (PolicyEngineTheme.DARK_RED, "Stop"),
   ("#8B4B9B", "Defined For")]

/-! ## Spec-modelled graph builder -/

/-- Modelled from the spec: the backend Graph Builder (`build()` /
`buildGraph`, spec section 4.4) is not among the shown sources (the
repository layout lists `backend/utils/` graph building utilities that are
absent from src/), so the traversal is modelled from the specification text:
depth-first traversal from the root at depth 0; expansion from a node stops
when its name is a stop variable, when the current depth equals `maxDepth`,
or when the node is already present in the graph; otherwise its references
are resolved and recursed into at depth+1 unless the target is already on
the current path (ancestor-cycle guard).  A name absent from the corpus is a
leaf.  Nodes carry their traversal level. -/
structure SpecGraph where
  nodes : List (String × Nat)
  edges : List (String × String)
deriving DecidableEq, Repr

/-- Whether the graph already contains a node for `name` (graph-wide
deduplication, spec section 4.4 step 1). -/
def SpecGraph.hasNode (g : SpecGraph) (name : String) : Bool :=
  g.nodes.any (fun n => n.1 == name)

/-- Emit a node at the given traversal level. -/
def SpecGraph.addNode (g : SpecGraph) (name : String) (level : Nat) :
    SpecGraph :=
  { g with nodes := g.nodes ++ [(name, level)] }

/-- Emit an edge. -/
def SpecGraph.addEdge (g : SpecGraph) (a b : String) : SpecGraph :=
  { g with edges := g.edges ++ [(a, b)] }

/-- Modelled from the spec: the Definition Repository lookup
(`get(name) -> VariableDefinition | NotFound`, spec section 4.1), reduced to
the reference list the builder consumes; `NotFound` is treated as a leaf
(empty reference list). -/
def lookupDeps (corpus : List (String × List String)) (name : String) :
    List String :=
  match corpus.find? (fun p => p.1 == name) with
  | some p => p.2
  | none => []

/-- Modelled from the spec: one traversal step over a node's reference list
(spec section 4.4 step 2).  For each reference an edge is emitted, and the
visitor `f` recurses into the target unless it is already on the current
path (the ancestor-cycle guard). -/
def foldVisit (f : String → SpecGraph → SpecGraph) (parent : String)
    (path : List String) : List String → SpecGraph → SpecGraph
  | [], g => g
  | c :: cs, g =>
      let g1 := g.addEdge parent c
      let g2 := if path.contains c then g1 else f c g1
      foldVisit f parent path cs g2

/-- Modelled from the spec: the recursive visit of one variable (spec section
4.4 steps 1-2).  `fuel` is the remaining depth budget `maxDepth - depth`,
which makes the traversal structurally terminating; the depth test of step 1
is kept as written (`depth == maxDepth`). -/
def visitVar (corpus : List (String × List String)) (stopVars : List String)
    (maxDepth : Nat) : Nat → Nat → String → List String → SpecGraph →
    SpecGraph
  | 0, depth, name, _, g =>
      if g.hasNode name then g else g.addNode name depth
  | fuel + 1, depth, name, path, g =>
      if g.hasNode name then g
      else if stopVars.contains name || depth == maxDepth then
        g.addNode name depth
      else
        foldVisit
          (fun c g' =>
            visitVar corpus stopVars maxDepth fuel (depth + 1) c
              (name :: path) g')
          name (name :: path) (lookupDeps corpus name) (g.addNode name depth)

/-- Modelled from the spec: `build(request) -> (nodes, edges)` (spec section
4.4), started at the root variable with depth 0 and an empty ancestor
path. -/
def buildGraph (corpus : List (String × List String))
    (stopVars : List String) (maxDepth : Nat) (root : String) : SpecGraph :=
  visitVar corpus stopVars maxDepth maxDepth 0 root [] ⟨[], []⟩

/-! ## Invariant lemmas for the spec-modelled builder -/

theorem foldVisit_nodes_le {m : Nat} {f : String → SpecGraph → SpecGraph}
    (hf : ∀ c g, (∀ n ∈ g.nodes, n.2 ≤ m) → ∀ n ∈ (f c g).nodes, n.2 ≤ m)
    (parent : String) (path : List String) :
    ∀ (cs : List String) (g : SpecGraph), (∀ n ∈ g.nodes, n.2 ≤ m) →
      ∀ n ∈ (foldVisit f parent path cs g).nodes, n.2 ≤ m := by
  intro cs
  induction cs with
  | nil => intro g hg; simpa [foldVisit] using hg
  | cons c cs ih =>
    intro g hg
    simp only [foldVisit]
    by_cases hc : path.contains c = true
    · simp only [hc, if_pos]
      exact ih _ (by simpa [SpecGraph.addEdge] using hg)
    · simp only [hc, if_neg, Bool.false_eq_true, not_false_eq_true]
      exact ih _ (hf _ _ (by simpa [SpecGraph.addEdge] using hg))

theorem visitVar_nodes_le (corpus : List (String × List String))
    (stopVars : List String) (m : Nat) :
    ∀ (fuel depth : Nat) (name : String) (path : List String) (g : SpecGraph),
      depth ≤ m → (∀ n ∈ g.nodes, n.2 ≤ m) →
      ∀ n ∈ (visitVar corpus stopVars m fuel depth name path g).nodes,
        n.2 ≤ m := by
  intro fuel
  induction fuel with
  | zero =>
    intro depth name path g hd hg n hn
    simp only [visitVar] at hn
    by_cases h : g.hasNode name = true
    · simp only [h, if_pos] at hn; exact hg n hn
    · simp only [h, if_neg, Bool.false_eq_true, not_false_eq_true,
        SpecGraph.addNode, List.mem_append, List.mem_singleton] at hn
      rcases hn with hn | rfl
      · exact hg n hn
      · exact hd
  | succ fuel ih =>
    intro depth name path g hd hg n hn
    simp only [visitVar] at hn
    by_cases h1 : g.hasNode name = true
    · simp only [h1, if_pos] at hn; exact hg n hn
    · simp only [h1, Bool.false_eq_true, not_false_eq_true, if_neg] at hn
      by_cases h2 : (stopVars.contains name || depth == m) = true
      · simp only [h2, if_pos, SpecGraph.addNode, List.mem_append,
          List.mem_singleton] at hn
        rcases hn with hn | rfl
        · exact hg n hn
        · exact hd
      · simp only [h2, Bool.false_eq_true, not_false_eq_true, if_neg] at hn
        have hdm : depth ≠ m := by
          intro hcon
          apply h2
          simp [hcon]
        have hd1 : depth + 1 ≤ m := Nat.succ_le_of_lt (Nat.lt_of_le_of_ne hd hdm)
        refine foldVisit_nodes_le (fun c g' hg' => ih (depth + 1) c (name :: path) g' hd1 hg') name (name :: path) _ _ ?_ n hn
        intro n' hn'
        simp only [SpecGraph.addNode, List.mem_append, List.mem_singleton] at hn'
        rcases hn' with hn' | rfl
        · exact hg n' hn'
        · exact hd

/-- C1: for every corpus and every start variable the spec-modelled
`buildGraph` terminates (it is a total function) and returns a finite graph
in which every node's level is at most `maxDepth`, regardless of cycles or
fan-out in the corpus. -/
theorem buildGraph_level_le_maxDepth (corpus : List (String × List String))
    (stopVars : List String) (maxDepth : Nat) (root : String) :
    ∀ n ∈ (buildGraph corpus stopVars maxDepth root).nodes,
      n.2 ≤ maxDepth := by
  intro n hn
  exact visitVar_nodes_le corpus stopVars maxDepth maxDepth 0 root [] ⟨[], []⟩
    (Nat.zero_le _) (by simp) n hn

/-- Witness for C1 on a cyclic two-variable corpus. -/
theorem buildGraph_level_le_maxDepth_witness :
    ("b", 1) ∈ (buildGraph [("a", ["b"]), ("b", ["a"])] [] 3 "a").nodes ∧
      (("b", 1) : String × Nat).2 ≤ 3 :=
  ⟨by decide, buildGraph_level_le_maxDepth [("a", ["b"]), ("b", ["a"])] [] 3 "a" ("b", 1) (by decide)⟩

/-- C2: an empty selected root variable makes `generateFlowchart` issue no
request, set a descriptive error and leave the displayed graph unchanged; and
a failed graph request sets the error to the server-provided message when
present (otherwise the fixed fallback) and leaves the displayed graph
unchanged. -/
theorem generateFlowchart_error_handling (s : AppState) :
    (s.selectedVariable = "" →
      (generateFlowchartClick s).2 = none ∧
      (generateFlowchartClick s).1.error = "Please select a variable" ∧
      (generateFlowchartClick s).1.graphData = s.graphData) ∧
    (∀ msg : Option String,
      (step s (.graphErr msg)).graphData = s.graphData ∧
      (∀ m, msg = some m → m ≠ "" → (step s (.graphErr msg)).error = m) ∧
      (msg = none →
        (step s (.graphErr msg)).error = "Failed to generate graph")) := by
  constructor
  · intro h
    simp [generateFlowchartClick, h]
  · intro msg
    refine ⟨by simp [step], ?_, ?_⟩
    · rintro m rfl hm
      simp [step, jsOrString, hm]
    · rintro rfl
      simp [step, jsOrString]

/-- Witness for C2: the initial state has no selected variable, and a server
error message is surfaced verbatim. -/
theorem generateFlowchart_error_handling_witness :
    ((generateFlowchartClick initialState).2 = none ∧
      (generateFlowchartClick initialState).1.error =
        "Please select a variable" ∧
      (generateFlowchartClick initialState).1.graphData =
        initialState.graphData) ∧
    (step initialState (.graphErr (some "Variable not found"))).error =
      "Variable not found" :=
  ⟨(generateFlowchart_error_handling initialState).1 rfl,
   ((generateFlowchart_error_handling initialState).2
      (some "Variable not found")).2.1 "Variable not found" rfl (by decide)⟩

/-- C4: a query shorter than 2 characters issues no search request, leaves
the loaded variable list unchanged and hides the results dropdown; a search
request is issued only for queries of length at least 2 and carries the
query as its `q` parameter. -/
theorem searchVariables_query_length (s : AppState) (query : String) :
    (query.length < 2 →
      (searchVariables s query).2 = none ∧
      (searchVariables s query).1.variables_ = s.variables_ ∧
      (searchVariables s query).1.showSearchResults = false) ∧
    (∀ r, (searchVariables s query).2 = some r →
      2 ≤ query.length ∧ r.q = query) := by
  constructor
  · intro h
    simp [searchVariables, h]
  · intro r hr
    simp only [searchVariables] at hr
    split at hr
    · simp at hr
    · next h =>
      simp only [Option.some.injEq] at hr
      exact ⟨Nat.not_lt.mp h, by rw [← hr]⟩

/-- Witness for C4: a one-character query. -/
theorem searchVariables_query_length_witness :
    (searchVariables initialState "a").2 = none ∧
    (searchVariables initialState "a").1.variables_ =
      initialState.variables_ ∧
    (searchVariables initialState "a").1.showSearchResults = false :=
  (searchVariables_query_length initialState "a").1 (by decide)

/-- C5: for a search term of length at least 2, `filteredVariables` is
exactly the loaded variables whose name or label contains the term as a
case-insensitive substring; for a shorter term it is the full list. -/
theorem filteredVariables_spec (searchTerm : String) (vars : List Variable) :
    (2 ≤ searchTerm.length →
      ∀ v, v ∈ filteredVariables searchTerm vars ↔
        v ∈ vars ∧
          (jsIncludes (jsToLower v.name) (jsToLower searchTerm) ∨
            jsIncludes (jsToLower (v.label.getD "")) (jsToLower searchTerm))) ∧
    (searchTerm.length < 2 → filteredVariables searchTerm vars = vars) := by
  constructor
  · intro h v
    simp [filteredVariables, h, List.mem_filter, matchesSearch,
      Bool.or_eq_true]
  · intro h
    simp [filteredVariables, Nat.not_le.mpr h]

/-- Witness for C5: a matching variable is kept by the filter. -/
theorem filteredVariables_spec_witness :
    (⟨"abc", some "x", false⟩ : Variable) ∈
      filteredVariables "ab" [⟨"abc", some "x", false⟩] :=
  ((filteredVariables_spec "ab" [⟨"abc", some "x", false⟩]).1 (by decide)
      ⟨"abc", some "x", false⟩).mpr ⟨by decide, Or.inl (by decide)⟩

/-- C3: every reachable UI state has `maxDepth` in `[1, 20]` (initially 10,
changed only by the slider with `min="1" max="20"`), and the graph request
carries that `maxDepth` unchanged. -/
theorem maxDepth_invariant {s : AppState} (hs : Reachable s) :
    (1 ≤ s.maxDepth ∧ s.maxDepth ≤ 20) ∧
      (buildGraphRequest s).maxDepth = s.maxDepth := by
  refine ⟨?_, rfl⟩
  induction hs with
  | init => exact ⟨by decide, by decide⟩
  | @step s e hs he ih =>
    cases e <;>
      simp_all [step, ValidEvent, searchVariables, generateFlowchartClick] <;>
      split <;> simp_all

/-- Witness for C3 at the initial state. -/
theorem maxDepth_invariant_witness :
    (1 ≤ initialState.maxDepth ∧ initialState.maxDepth ≤ 20) ∧
      (buildGraphRequest initialState).maxDepth = initialState.maxDepth :=
  maxDepth_invariant Reachable.init

/-- C6 (amended): every request's stop/no-params arrays contain no empty or
whitespace-only entries in the textarea revisions (newline split: every kept
entry has a non-empty trim; comma split: every kept entry is non-empty and
trimmed), and in the chip-based revision the arrays never contain duplicate
names; the textarea payloads, however, can contain duplicates. -/
theorem payload_set_like :
    (∀ s : String, ∀ x ∈ textareaPayload s, jsTrim x ≠ "") ∧
    (∀ s : String, ∀ x ∈ csvPayload s, x ≠ "") ∧
    (∀ st : AppState, Reachable st →
      (buildGraphRequest st).stopVariables.Nodup ∧
      (buildGraphRequest st).noParamsList.Nodup) := by
  refine ⟨?_, ?_, ?_⟩
  · intro s x hx
    exact of_decide_eq_true (List.mem_filter.mp hx).2
  · intro s x hx
    exact of_decide_eq_true (List.mem_filter.mp hx).2
  · intro st hst
    show st.stopVariables.Nodup ∧ st.noParamsList.Nodup
    induction hst with
    | init => exact ⟨List.nodup_nil, List.nodup_nil⟩
    | @step s e hs he ih =>
      cases e
      case searchInput q =>
        simp only [step, searchVariables]
        split <;> exact ih
      case generateClick =>
        simp only [step, generateFlowchartClick]
        split <;> exact ih
      case stopVarAdd name =>
        simp only [step]
        split
        · exact ih
        · next hc =>
          refine ⟨?_, ih.2⟩
          rw [List.nodup_append]
          refine ⟨ih.1, List.nodup_singleton name, ?_⟩
          intro a ha hb
          rw [List.mem_singleton] at hb
          subst hb
          exact hc (by simpa using ha)
      case stopVarRemove idx =>
        exact ⟨List.Nodup.sublist (List.eraseIdx_sublist _ _) ih.1, ih.2⟩
      case noParamsAdd name =>
        simp only [step]
        split
        · exact ih
        · next hc =>
          refine ⟨ih.1, ?_⟩
          rw [List.nodup_append]
          refine ⟨ih.2, List.nodup_singleton name, ?_⟩
          intro a ha hb
          rw [List.mem_singleton] at hb
          subst hb
          exact hc (by simpa using ha)
      case noParamsRemove idx =>
        exact ⟨ih.1, List.Nodup.sublist (List.eraseIdx_sublist _ _) ih.2⟩
      all_goals exact ih

/-- Witness for C6 at concrete inputs. -/
theorem payload_set_like_witness :
    jsTrim " a " ≠ "" ∧ (buildGraphRequest initialState).stopVariables.Nodup :=
  ⟨payload_set_like.1 " a \nb" " a " (by decide),
   (payload_set_like.2.2 initialState Reachable.init).1⟩

/-- C6 counterexample: the newline-textarea payload of the older revision
keeps duplicate names, so the request arrays are not duplicate-free. -/
theorem textareaPayload_duplicate_counterexample :
    textareaPayload "a\na" = ["a", "a"] ∧
      ¬ (textareaPayload "a\na").Nodup := by
  exact ⟨by decide, by decide⟩

/-- C7 (amended): in the country-aware revision every reachable state's
`paramDetailLevel` is one of Minimal, Summary, Full (initially Summary) and
the graph request carries it unchanged; the styled revision instead draws it
from its own select options Summary, Latest 5 values, All values. -/
theorem paramDetailLevel_enum :
    (∀ s : AppState, Reachable s →
      s.paramDetailLevel ∈ (["Minimal", "Summary", "Full"] : List String) ∧
        (buildGraphRequest s).paramDetailLevel = s.paramDetailLevel) ∧
    (∀ t : StyledControlsState, ReachableStyled t →
      t.paramDetailLevel ∈ paramDetailOptionsStyled) := by
  constructor
  · intro s hs
    refine ⟨?_, rfl⟩
    induction hs with
    | init => decide
    | @step s e hs he ih =>
      cases e
      case searchInput q =>
        simp only [step, searchVariables]
        split <;> exact ih
      case generateClick =>
        simp only [step, generateFlowchartClick]
        split <;> exact ih
      case setParamDetail v => exact he
      case stopVarAdd name =>
        simp only [step]
        split <;> exact ih
      case noParamsAdd name =>
        simp only [step]
        split <;> exact ih
      all_goals exact ih
  · intro t ht
    induction ht with
    | init => decide
    | @step t e ht he ih =>
      cases e
      case setParamDetail v => exact he
      all_goals exact ih

/-- Witness for C7 at the initial states of both revisions. -/
theorem paramDetailLevel_enum_witness :
    initialState.paramDetailLevel ∈
        (["Minimal", "Summary", "Full"] : List String) ∧
      styledInit.paramDetailLevel ∈ paramDetailOptionsStyled :=
  ⟨(paramDetailLevel_enum.1 initialState Reachable.init).1,
   paramDetailLevel_enum.2 styledInit ReachableStyled.init⟩

/-- C7 counterexample: the styled revision's select offers "Latest 5 values",
so a reachable state carries a `paramDetailLevel` outside
Minimal/Summary/Full. -/
theorem paramDetailLevel_counterexample :
    ReachableStyled
        (styledStep styledInit (.setParamDetail "Latest 5 values")) ∧
      (styledStep styledInit
          (.setParamDetail "Latest 5 values")).paramDetailLevel =
        "Latest 5 values" ∧
      "Latest 5 values" ∉ (["Minimal", "Summary", "Full"] : List String) :=
  ⟨ReachableStyled.step ReachableStyled.init (show _ ∈ paramDetailOptionsStyled by decide), rfl, by decide⟩

/-- C8: the presentation layer gives each of the four node roles its own
color (the Legend panel lists one pairwise-distinct color per role), and the
theme's node classes have pairwise distinct background and border
schemes. -/
theorem node_roles_visually_distinct :
    legendNodeEntries.map Prod.snd =
        ["Root", "Dependency", "Stop", "Defined For"] ∧
      (legendNodeEntries.map Prod.fst).Nodup ∧
      targetNode ≠ stopNode ∧ targetNode ≠ normalNode ∧
      stopNode ≠ normalNode ∧
      targetNode.background ≠ stopNode.background ∧
      targetNode.background ≠ normalNode.background ∧
      stopNode.background ≠ normalNode.background ∧
      targetNode.border ≠ stopNode.border ∧
      targetNode.border ≠ normalNode.border ∧
      stopNode.border ≠ normalNode.border := by
  decide

/-- C9: changing the country resets exactly the selected variable, search
term, error and displayed graph, keeps every other option unchanged, and all
requests built afterwards carry the new country (which no other event
modifies). -/
theorem countryChange_spec (s : AppState) (c : String) :
    ((step s (.countryChange c)).selectedCountry = c ∧
      (step s (.countryChange c)).selectedVariable = "" ∧
      (step s (.countryChange c)).searchTerm = "" ∧
      (step s (.countryChange c)).error = "" ∧
      (step s (.countryChange c)).graphData = none) ∧
    ((step s (.countryChange c)).variables_ = s.variables_ ∧
      (step s (.countryChange c)).showSearchResults = s.showSearchResults ∧
      (step s (.countryChange c)).loading = s.loading ∧
      (step s (.countryChange c)).detailsOpen = s.detailsOpen ∧
      (step s (.countryChange c)).legendExpanded = s.legendExpanded ∧
      (step s (.countryChange c)).maxDepth = s.maxDepth ∧
      (step s (.countryChange c)).expandAddsSubtracts =
        s.expandAddsSubtracts ∧
      (step s (.countryChange c)).showParameters = s.showParameters ∧
      (step s (.countryChange c)).paramDetailLevel = s.paramDetailLevel ∧
      (step s (.countryChange c)).stopVariables = s.stopVariables ∧
      (step s (.countryChange c)).stopVarSearch = s.stopVarSearch ∧
      (step s (.countryChange c)).showStopVarDropdown =
        s.showStopVarDropdown ∧
      (step s (.countryChange c)).noParamsList = s.noParamsList ∧
      (step s (.countryChange c)).noParamsSearch = s.noParamsSearch ∧
      (step s (.countryChange c)).showNoParamsDropdown =
        s.showNoParamsDropdown) ∧
    ((loadVariablesRequest (step s (.countryChange c))).country = c ∧
      (∀ q r, (searchVariables (step s (.countryChange c)) q).2 = some r →
        r.country = c) ∧
      (buildGraphRequest (step s (.countryChange c))).country = c) ∧
    (∀ (s₂ : AppState) (e : Event), (∀ c', e ≠ .countryChange c') →
      (step s₂ e).selectedCountry = s₂.selectedCountry) := by
  refine ⟨⟨rfl, rfl, rfl, rfl, rfl⟩,
    ⟨rfl, rfl, rfl, rfl, rfl, rfl, rfl, rfl, rfl, rfl, rfl, rfl, rfl, rfl,
      rfl⟩, ⟨rfl, ?_, rfl⟩, ?_⟩
  · intro q r hr
    simp only [searchVariables] at hr
    split at hr
    · simp at hr
    · simp only [Option.some.injEq] at hr
      rw [← hr]
      rfl
  · intro s₂ e he
    cases e
    case countryChange c' => exact absurd rfl (he c')
    case searchInput q =>
      simp only [step, searchVariables]
      split <;> rfl
    case generateClick =>
      simp only [step, generateFlowchartClick]
      split <;> rfl
    case stopVarAdd name =>
      simp only [step]
      split <;> rfl
    case noParamsAdd name =>
      simp only [step]
      split <;> rfl
    all_goals rfl

/-- Witness for C9 on a concrete country change and a concrete non-country
event. -/
theorem countryChange_spec_witness :
    (step initialState (.countryChange "UK")).selectedCountry = "UK" ∧
      (⟨"ab", "UK"⟩ : SearchRequest).country = "UK" ∧
      (step initialState (.setMaxDepth 5)).selectedCountry =
        initialState.selectedCountry := by
  obtain ⟨⟨h1, -, -, -, -⟩, -, ⟨-, hsearch, -⟩, hframe⟩ :=
    countryChange_spec initialState "UK"
  exact ⟨h1, hsearch "ab" ⟨"ab", "UK"⟩ (by decide),
    hframe initialState (.setMaxDepth 5) (fun c' => by simp)⟩

/-- C10 counterexample: the unguarded filter of the older revisions throws
(`none`) on a variable whose label is missing and whose name does not
contain the search term. -/
theorem filteredVariablesUnguarded_counterexample :
    filteredVariablesUnguarded "xy" [⟨"abc", none, false⟩] = none := by
  decide

/-- Lifting the unguarded predicate to the guarded one when a label is
present. -/
theorem matchesSearchUnguarded_eq_of_label (t : String) (v : Variable)
    (h : v.label.isSome) :
    matchesSearchUnguarded t v = some (matchesSearch t v) := by
  obtain ⟨name, label, hasP⟩ := v
  cases label with
  | none => simp at h
  | some l =>
    by_cases hn : jsIncludes (jsToLower name) (jsToLower t) = true <;>
      simp [matchesSearchUnguarded, matchesSearch, hn]

/-- C10 (amended): the guarded revision of the filter is total by
construction; the unguarded revisions succeed — and agree with the guarded
filter — whenever every loaded variable has a label, and throw exactly when
an unlabeled variable's name does not contain the term (see the
counterexample). -/
theorem filteredVariablesUnguarded_total (searchTerm : String)
    (vars : List Variable) (h : ∀ v ∈ vars, v.label.isSome) :
    filteredVariablesUnguarded searchTerm vars =
      some (filteredVariables searchTerm vars) := by
  simp only [filteredVariablesUnguarded, filteredVariables]
  split
  · induction vars with
    | nil => simp [filterOpt]
    | cons v vs ih =>
      have hv := h v (by simp)
      have hvs := ih (fun w hw => h w (List.mem_cons_of_mem _ hw))
      simp only [filterOpt, matchesSearchUnguarded_eq_of_label _ _ hv,
        Option.bind_eq_bind, Option.some_bind, hvs, List.filter_cons]
      by_cases hm : matchesSearch searchTerm v = true <;> simp [hm]
  · rfl

/-- Witness for C10 on a labelled corpus. -/
theorem filteredVariablesUnguarded_total_witness :
    filteredVariablesUnguarded "ab" [⟨"abc", some "x", false⟩] =
      some (filteredVariables "ab" [⟨"abc", some "x", false⟩]) :=
  filteredVariablesUnguarded_total "ab" [⟨"abc", some "x", false⟩]
    (by decide)
